import Mathlib

/-!
Shallow embedding of `unleashed_py` (upOwa/unleashed-py), the thin client for the
Unleashed REST API, together with proofs about its signing and pagination logic.

Python strings are modelled as Lean `String`s (byte strings as `List Nat` of byte
values), machine words as `Nat` reduced modulo `2 ^ 32` where overflow matters,
fallible code as `Except PyErr`, and the HTTP transport as an explicit environment
function from the request address to a response envelope.  Each request issued is
additionally recorded in a trace of addresses so that claims about how many
requests are issued, and at which addresses, can be stated.
-/

set_option autoImplicit false
set_option maxRecDepth 10000

namespace UnleashedPy

/-! ## Python-level errors -/

/-- Errors raised by the embedded code: `UnicodeEncodeError` from `str.encode`,
`requests.HTTPError` from `raise_for_status`, and `KeyError` from dict lookup. -/
inductive PyErr where
  | unicodeEncodeError
  | httpError (status : Nat)
  | keyError (key : String)
  deriving DecidableEq, Repr

instance exceptDecEq {ε α : Type} [DecidableEq ε] [DecidableEq α] : DecidableEq (Except ε α) := fun
  | .ok a, .ok b =>
    if h : a = b then .isTrue (by rw [h]) else .isFalse (by intro hc; cases hc; exact h rfl)
  | .ok _, .error _ => .isFalse (by intro hc; cases hc)
  | .error _, .ok _ => .isFalse (by intro hc; cases hc)
  | .error e, .error e' =>
    if h : e = e' then .isTrue (by rw [h]) else .isFalse (by intro hc; cases hc; exact h rfl)

/-! ## Bytes, ASCII codec -/

/-- `True` iff every character of `s` is in the ASCII range (codepoint < 128). -/
def strAscii (s : String) : Bool := s.data.all (fun c => c.toNat < 128)

/-- The byte values of the ASCII encoding of `s` (meaningful when `strAscii s`). -/
def asciiBytes (s : String) : List Nat := s.data.map Char.toNat

/-- `str.encode(s, encoding='ASCII')`: the ASCII bytes of `s`, or a
`UnicodeEncodeError` when some character is outside the ASCII range. -/
def pyEncodeAscii (s : String) : Except PyErr (List Nat) :=
  if strAscii s then .ok (asciiBytes s) else .error .unicodeEncodeError

/-- `bytes.decode()` of a list of ASCII byte values back into a string. -/
def asciiDecode (bs : List Nat) : String := String.mk (bs.map Char.ofNat)

/-! ## SHA-256 over byte lists (`hashlib.sha256`), words as `Nat` mod `2 ^ 32` -/

/-- Truncate to a 32-bit word. -/
def w32 (n : Nat) : Nat := n % 4294967296

/-- Right rotation of a 32-bit word. -/
def rotr (n x : Nat) : Nat := w32 ((x >>> n) ||| (x <<< (32 - n)))

/-- Bitwise complement of a 32-bit word. -/
def notw (x : Nat) : Nat := x ^^^ 4294967295

def sha_ch (e f g : Nat) : Nat := (e &&& f) ^^^ (notw e &&& g)

def sha_maj (a b c : Nat) : Nat := (a &&& b) ^^^ (a &&& c) ^^^ (b &&& c)

def bigSigma0 (x : Nat) : Nat := rotr 2 x ^^^ rotr 13 x ^^^ rotr 22 x

def bigSigma1 (x : Nat) : Nat := rotr 6 x ^^^ rotr 11 x ^^^ rotr 25 x

def smallSigma0 (x : Nat) : Nat := rotr 7 x ^^^ rotr 18 x ^^^ (x >>> 3)

def smallSigma1 (x : Nat) : Nat := rotr 17 x ^^^ rotr 19 x ^^^ (x >>> 10)

/-- The 64 SHA-256 round constants (FIPS 180-4 section 4.2.2), in decimal. -/
def sha_k : List Nat :=
  [1116352408, 1899447441, 3049323471, 3921009573, 961987163, 1508970993,
   2453635748, 2870763221, 3624381080, 310598401, 607225278, 1426881987,
   1925078388, 2162078206, 2614888103, 3248222580, 3835390401, 4022224774,
   264347078, 604807628, 770255983, 1249150122, 1555081692, 1996064986,
   2554220882, 2821834349, 2952996808, 3210313671, 3336571891, 3584528711,
   113926993, 338241895, 666307205, 773529912, 1294757372, 1396182291,
   1695183700, 1986661051, 2177026350, 2456956037, 2730485921, 2820302411,
   3259730800, 3345764771, 3516065817, 3600352804, 4094571909, 275423344,
   430227734, 506948616, 659060556, 883997877, 958139571, 1322822218,
   1537002063, 1747873779, 1955562222, 2024104815, 2227730452, 2361852424,
   2428436474, 2756734187, 3204031479, 3329325298]

/-- The SHA-256 initial hash value (FIPS 180-4 section 5.3.3), in decimal. -/
def sha_h0 : List Nat :=
  [1779033703, 3144134277, 1013904242, 2773480762,
   1359893119, 2600822924, 528734635, 1541459225]

/-- Big-endian 8-byte encoding of a length in bits. -/
def be64 (n : Nat) : List Nat :=
  [(n >>> 56) % 256, (n >>> 48) % 256, (n >>> 40) % 256, (n >>> 32) % 256,
   (n >>> 24) % 256, (n >>> 16) % 256, (n >>> 8) % 256, n % 256]

/-- The four big-endian bytes of a 32-bit word. -/
def wordBytes (w : Nat) : List Nat :=
  [(w >>> 24) % 256, (w >>> 16) % 256, (w >>> 8) % 256, w % 256]

/-- Group a byte list into big-endian 32-bit words, four bytes at a time. -/
def bytesToWords : List Nat → List Nat
  | b0 :: b1 :: b2 :: b3 :: rest => (((b0 * 256 + b1) * 256 + b2) * 256 + b3) :: bytesToWords rest
  | _ => []

/-- Split a word list into 16-word blocks (structural recursion so that the
kernel can evaluate it; SHA-256 padding always produces a multiple of 16). -/
def chunk16 : List Nat → List (List Nat)
  | [] => []
  | w0 :: w1 :: w2 :: w3 :: w4 :: w5 :: w6 :: w7 ::
    w8 :: w9 :: w10 :: w11 :: w12 :: w13 :: w14 :: w15 :: rest =>
      [w0, w1, w2, w3, w4, w5, w6, w7, w8, w9, w10, w11, w12, w13, w14, w15] :: chunk16 rest
  | l => [l]

/-- Extend a 16-word block to the 64-word message schedule. -/
def buildW (block : List Nat) : List Nat :=
  (List.range 48).foldl (fun w i =>
    w ++ [w32 (smallSigma1 (w.getD (i + 14) 0) + w.getD (i + 9) 0 +
               smallSigma0 (w.getD (i + 1) 0) + w.getD i 0)]) block

/-- One round of the SHA-256 compression loop on the state `(a,…,h)`,
consuming one `(scheduleWord, roundConstant)` pair. -/
def sha_round (st : Nat × Nat × Nat × Nat × Nat × Nat × Nat × Nat) (wk : Nat × Nat) :
    Nat × Nat × Nat × Nat × Nat × Nat × Nat × Nat :=
  match st, wk with
  | (a, b, c, d, e, f, g, h), (w, k) =>
    let t1 := w32 (h + bigSigma1 e + sha_ch e f g + k + w)
    let t2 := w32 (bigSigma0 a + sha_maj a b c)
    (w32 (t1 + t2), a, b, c, w32 (d + t1), e, f, g)

/-- Compress one 16-word block into the running 8-word hash value. -/
def sha_compress (h : List Nat) (block : List Nat) : List Nat :=
  let w := buildW block
  let init := (h.getD 0 0, h.getD 1 0, h.getD 2 0, h.getD 3 0,
               h.getD 4 0, h.getD 5 0, h.getD 6 0, h.getD 7 0)
  match (w.zip sha_k).foldl sha_round init with
  | (a, b, c, d, e, f, g, hh) =>
    List.zipWith (fun x y => w32 (x + y)) h [a, b, c, d, e, f, g, hh]

/-- `hashlib.sha256(msg).digest()`: the 32-byte SHA-256 digest of a byte list. -/
def sha256 (msg : List Nat) : List Nat :=
  let padded := msg ++ [128] ++ List.replicate ((119 - msg.length % 64) % 64) 0 ++
                be64 (8 * msg.length)
  ((chunk16 (bytesToWords padded)).foldl sha_compress sha_h0).foldr
    (fun w acc => wordBytes w ++ acc) []

/-- `hmac.new(key, msg, digestmod=hashlib.sha256).digest()` (block size 64). -/
def hmacSha256 (key msg : List Nat) : List Nat :=
  let k0 := if 64 < key.length then sha256 key else key
  let k := k0 ++ List.replicate (64 - k0.length) 0
  sha256 ((k.map (fun b => b ^^^ 92)) ++ sha256 ((k.map (fun b => b ^^^ 54)) ++ msg))

/-- `base64.b64encode` of a byte list, as the byte values of the encoding
(61 is the byte value of the padding character). -/
def b64chars : List Nat :=
  ((List.range 26).map (fun i => 65 + i)) ++ ((List.range 26).map (fun i => 97 + i)) ++
  ((List.range 10).map (fun i => 48 + i)) ++ [43, 47]

def b64digit (n : Nat) : Nat := b64chars.getD n 0

def b64encode : List Nat → List Nat
  | [] => []
  | [b0] => [b64digit (b0 >>> 2), b64digit ((b0 % 4) <<< 4), 61, 61]
  | [b0, b1] => [b64digit (b0 >>> 2), b64digit (((b0 % 4) <<< 4) + (b1 >>> 4)),
                 b64digit ((b1 % 16) <<< 2), 61]
  | b0 :: b1 :: b2 :: rest =>
      b64digit (b0 >>> 2) :: b64digit (((b0 % 4) <<< 4) + (b1 >>> 4)) ::
      b64digit (((b1 % 16) <<< 2) + (b2 >>> 6)) :: b64digit (b2 % 64) :: b64encode rest

/-! ## `UnleashedBase.getSignature` -/

/-- `UnleashedBase.getSignature(args, privateKey)`: ASCII-encode both inputs
(raising `UnicodeEncodeError` on a non-ASCII character), HMAC-SHA256 `args`
keyed by `privateKey`, and return the base64 encoding decoded back to text. -/
def getSignature (args privateKey : String) : Except PyErr String := do
  let key ← pyEncodeAscii privateKey
  let msg ← pyEncodeAscii args
  let myhmacsha256 := hmacSha256 key msg
  return asciiDecode (b64encode myhmacsha256)

/-! ## Response envelopes and the HTTP environment

The vendor's items are opaque JSON objects; they are modelled by a type
parameter `α` with decidable (structural) equality, matching Python's `==`
on decoded JSON values. -/

/-- The decoded JSON response envelope of a GET request, together with the HTTP
status code of the response: `items` models the `Items` key (`none` when the
key is absent), `pagination` models the `Pagination` key, whose value in turn
holds an optional `NumberOfPages` integer. -/
structure Envelope (α : Type) where
  status : Nat
  items : Option (List α)
  pagination : Option (Option Int)

/-- The HTTP environment: what `requests.get` returns at each address.  The
envelope is a function of the request address; the pagination claims never
need response bodies that vary with headers. -/
def World (α : Type) : Type := String → Envelope α

/-- Modelled from the spec: `requests.Response.raise_for_status` of the external
HTTP transport, which the spec (§6, §7) describes as treating any non-2xx
status as a fatal `HttpStatusError`. -/
def raise_for_status {α : Type} (res : Envelope α) : Except PyErr Unit :=
  if 200 ≤ res.status ∧ res.status ≤ 299 then .ok () else .error (.httpError res.status)

/-! ## `Resource` client state -/

/-- The mutable fields of a `Resource` instance: the credentials and endpoint
descriptor fixed by `__init__` plus the `page`, `address` and
`header['api-auth-signature']` slots rewritten by `build_header`.  `filter` is
`Option String` because `build_header` tests `self.filter is not None`
(`__init__` always stores a string, possibly empty). -/
structure ClientState where
  auth_id : String
  auth_sig : String
  api_add : String
  resource_name : String
  filter : Option String
  page : Option Int
  api_auth_signature : Option String
  address : String
  deriving DecidableEq, Repr

/-- `Resource.build_header(page_num)`: store the page, re-sign the filter
string (an empty filter when `filter` is `None`), and rebuild
`base/resource[/page]` with the filter appended after `?` whenever `filter`
is not `None` — even when the filter string is empty. -/
def build_header (st : ClientState) (page_num : Option Int) : Except PyErr ClientState :=
  let st := { st with page := page_num }
  match st.filter with
  | some f =>
    (getSignature f st.auth_sig).map (fun sig =>
      let address := st.api_add ++ "/" ++ st.resource_name
      let address := match st.page with
        | some p => address ++ "/" ++ toString p
        | none => address
      { st with api_auth_signature := some sig, address := address ++ "?" ++ f })
  | none =>
    (getSignature "" st.auth_sig).map (fun sig =>
      let address := st.api_add ++ "/" ++ st.resource_name
      let address := match st.page with
        | some p => address ++ "/" ++ toString p
        | none => address
      { st with api_auth_signature := some sig, address := address })

/-- The filter string `Resource.__init__` accumulates from its keyword
arguments: `name=value` pairs joined by `&`. -/
def buildFilter (kwargs : List (String × String)) : String :=
  kwargs.foldl (fun acc kv =>
    if acc = "" then acc ++ kv.1 ++ "=" ++ kv.2 else acc ++ "&" ++ kv.1 ++ "=" ++ kv.2) ""

/-- `Resource.__init__`: store the credentials and endpoint, build the filter
string from the keyword arguments, set `page = 1` and call `build_header(1)`. -/
def resource_init (resource_name auth_id auth_sig api_add : String)
    (kwargs : List (String × String)) : Except PyErr ClientState :=
  build_header
    { auth_id := auth_id, auth_sig := auth_sig, api_add := api_add,
      resource_name := resource_name, filter := some (buildFilter kwargs),
      page := some 1, api_auth_signature := none, address := "" } (some 1)

/-! ## Pagination and result accumulation -/

/-- The loop body of `Resource._build_results`: `for result in r: if result not
in results: results.append(result)` — append each incoming item to the
accumulator unless a structurally equal one is already present. -/
def pyDedupInto {α : Type} [DecidableEq α] (results r : List α) : List α :=
  r.foldl (fun acc result => if result ∈ acc then acc else acc ++ [result]) results

/-- `pyDedupInto` starting from an empty accumulator: first-occurrence
deduplication of a single list. -/
def pyDedup {α : Type} [DecidableEq α] (r : List α) : List α := pyDedupInto [] r

/-- `json.dumps` of a list, given a serializer for the opaque items
(Python's default separator between items is `", "`). -/
def pyJsonDumpsList {α : Type} (dump : α → String) (l : List α) : String :=
  "[" ++ String.intercalate ", " (l.map dump) ++ "]"

/-- `Resource._build_results(results)`: GET the current address, raise on a
non-2xx status, read `Items` (a `KeyError` if absent), and merge the items
into `results`, skipping structural duplicates. -/
def _build_results {α : Type} [DecidableEq α] (world : World α) (st : ClientState)
    (results : List α) : Except PyErr (List α) := do
  let res := world st.address
  let _ ← raise_for_status res
  match res.items with
  | none => .error (.keyError "Items")
  | some r => .ok (pyDedupInto results r)

/-- `Resource.first_page` before `json.dumps`: GET the current address, raise
on a non-2xx status and return the envelope's `Items` verbatim. -/
def first_page_core {α : Type} [DecidableEq α] (world : World α) (st : ClientState) :
    Except PyErr (List α) := do
  let res := world st.address
  let _ ← raise_for_status res
  match res.items with
  | none => .error (.keyError "Items")
  | some items => .ok items

/-- `Resource.first_page`: `json.dumps(res.json()['Items'])`. -/
def first_page {α : Type} [DecidableEq α] (dump : α → String) (world : World α)
    (st : ClientState) : Except PyErr String :=
  (first_page_core world st).map (pyJsonDumpsList dump)

/-- `Resource.getPages`: GET the current address and return
`Pagination.NumberOfPages`; the `try/except KeyError` turns a missing
`Pagination` key or a missing `NumberOfPages` key into `None`, while the
`HTTPError` of `raise_for_status` is not a `KeyError` and propagates. -/
def getPages {α : Type} (world : World α) (st : ClientState) : Except PyErr (Option Int) := do
  let res := world st.address
  let _ ← raise_for_status res
  match res.pagination with
  | none => .ok none
  | some pag =>
    match pag with
    | none => .ok none
    | some n => .ok (some n)

/-- The page loop of `Resource.all_results`: for each page index call
`build_header(i)` then `_build_results(results)`.  The state, the accumulator
and the trace of requested addresses are threaded explicitly. -/
def all_results_loop {α : Type} [DecidableEq α] (world : World α) :
    List Int → ClientState → List α → List String →
    Except PyErr (ClientState × List α × List String)
  | [], st, results, trace => .ok (st, results, trace)
  | i :: rest, st, results, trace => do
    let st ← build_header st (some i)
    let results ← _build_results world st results
    all_results_loop world rest st results (trace ++ [st.address])

/-- Python's `range(a, b)` over integers, as the list `[a, a+1, …, b-1]`
(empty when `b ≤ a`). -/
def pyRange (a b : Int) : List Int :=
  (List.range (b - a).toNat).map (fun (i : Nat) => a + (i : Int))

/-- `Resource.all_results` before `json.dumps`: discover the page count from
the current address, then either loop over `range(1, pages + 1)` or — when
`getPages` returned `None` — rebuild the header with no page and issue a
single fetch.  Returns the accumulated items and the trace of all requested
addresses (the discovery request first). -/
def all_results_core {α : Type} [DecidableEq α] (world : World α) (st : ClientState) :
    Except PyErr (List α × List String) := do
  let pages ← getPages world st
  match pages with
  | some n =>
    (all_results_loop world (pyRange 1 (n + 1)) st [] [st.address]).map
      (fun r => (r.2.1, r.2.2))
  | none => do
    let st1 ← build_header st none
    let results ← _build_results world st1 []
    .ok (results, [st.address, st1.address])

/-- `Resource.all_results`: `json.dumps` of the accumulated results (paired
with the request trace). -/
def all_results {α : Type} [DecidableEq α] (dump : α → String) (world : World α)
    (st : ClientState) : Except PyErr (String × List String) :=
  (all_results_core world st).map (fun r => (pyJsonDumpsList dump r.1, r.2))

/-- `Resource.get_page(page)`: `build_header(page)` then one `_build_results`
pass against an empty accumulator, returning `json.dumps` of the result. -/
def get_page {α : Type} [DecidableEq α] (dump : α → String) (world : World α)
    (st : ClientState) (page : Option Int) : Except PyErr String := do
  let st ← build_header st page
  let results ← _build_results world st []
  .ok (pyJsonDumpsList dump results)

/-! ## `EditableResource.post_object` -/

/-- A POST request as handed to `requests.post`: the target address, the
four header entries of `self.header`, and the caller-supplied body. -/
structure PostRequest where
  address : String
  content_type : String
  accept : String
  api_auth_id : String
  api_auth_signature : Option String
  body : String
  deriving DecidableEq, Repr

/-- The current `self.header` and `self.address` of a client, attached to a
POST body. -/
def currentPostRequest (st : ClientState) (object : String) : PostRequest :=
  { address := st.address, content_type := "application/json",
    accept := "application/json", api_auth_id := st.auth_id,
    api_auth_signature := st.api_auth_signature, body := object }

/-- `EditableResource.post_object(guid, object)`: POST `object` to the current
address with the current header and hand back the transport's raw response
untouched; the client state is not modified and `guid` is never used. -/
def post_object {α ρ : Type} (postWorld : PostRequest → ρ) (st : ClientState)
    (guid : α) (object : String) : ρ × ClientState :=
  (postWorld (currentPostRequest st object), st)

/-! ## Address shapes used in the statements -/

/-- The address `build_header` produces for page `i` when the stored filter
string is `f`: `base/resource/i?f`. -/
def pageAddress (st : ClientState) (f : String) (i : Int) : String :=
  st.api_add ++ "/" ++ st.resource_name ++ "/" ++ toString i ++ "?" ++ f

/-- The address `build_header` produces for `page_num = None` when the stored
filter string is `f`: `base/resource?f` — no page segment. -/
def noPageAddress (st : ClientState) (f : String) : String :=
  st.api_add ++ "/" ++ st.resource_name ++ "?" ++ f

/-- The client state after `build_header(i)` on a client whose filter string is
`f` and whose signature evaluates to `s` (see `build_header_page` below). -/
def afterPage (st : ClientState) (s f : String) (i : Int) : ClientState :=
  { st with page := some i, api_auth_signature := some s, address := pageAddress st f i }

/-- The client state after `build_header(None)` on a client whose filter string
is `f` and whose signature evaluates to `s` (see `build_header_none` below). -/
def afterNone (st : ClientState) (s f : String) : ClientState :=
  { st with page := none, api_auth_signature := some s, address := noPageAddress st f }

/-! ## Concrete clients and environments used in witnesses and counterexamples -/

/-- A freshly constructed client for resource `name` with no keyword filter:
the field values `Resource.__init__("name", "id", "secret", "https://api")`
produces (the signature header slot is irrelevant to the statements below). -/
def mkClient (name : String) : ClientState :=
  { auth_id := "id", auth_sig := "secret", api_add := "https://api",
    resource_name := name, filter := some "", page := some 1,
    api_auth_signature := none, address := "https://api/" ++ name ++ "/1?" }

/-- A 3-page resource whose page 2 ends with the item that starts page 3. -/
def worldOrders : World Nat := fun addr =>
  if addr = "https://api/Orders/1?" then ⟨200, some [1, 2], some (some 3)⟩
  else if addr = "https://api/Orders/2?" then ⟨200, some [3, 4], some (some 3)⟩
  else if addr = "https://api/Orders/3?" then ⟨200, some [4, 5], some (some 3)⟩
  else ⟨404, none, none⟩

/-- The per-page items served by `worldOrders`. -/
def wsOrders : Int → List Nat := fun i =>
  if i = 1 then [1, 2] else if i = 2 then [3, 4] else if i = 3 then [4, 5] else []

/-- A resource whose envelope has no `Pagination` key and whose `Items`
contain a structural duplicate, at both the page-1 and the page-less address. -/
def worldWidgets : World Nat := fun addr =>
  if addr = "https://api/Widgets/1?" then ⟨200, some [7, 7], none⟩
  else if addr = "https://api/Widgets?" then ⟨200, some [7, 7], none⟩
  else ⟨404, none, none⟩

/-- A single-page resource responding only at the page-1 address. -/
def worldGadgets : World Nat := fun addr =>
  if addr = "https://api/Gadgets/1?" then ⟨200, some [1], some (some 1)⟩
  else ⟨404, none, none⟩

/-- A 5-page resource whose page 2 responds with HTTP 500. -/
def worldSprockets : World Nat := fun addr =>
  if addr = "https://api/Sprockets/1?" then ⟨200, some [1], some (some 5)⟩
  else if addr = "https://api/Sprockets/2?" then ⟨500, none, none⟩
  else ⟨404, none, none⟩

/-- The per-page items served by `worldSprockets` before the failure. -/
def wsSprockets : Int → List Nat := fun i => if i = 1 then [1] else []

/-- Four resources exercising `getPages` and `_build_results` envelope cases:
`NumberOfPages` present, `Pagination` absent, `NumberOfPages` absent inside
`Pagination`, and `Items` absent. -/
def worldBolts : World Nat := fun addr =>
  if addr = "https://api/Bolts/1?" then ⟨200, some [9], some (some 4)⟩
  else if addr = "https://api/BoltsNoPag/1?" then ⟨200, some [9], none⟩
  else if addr = "https://api/BoltsEmptyPag/1?" then ⟨200, some [9], some none⟩
  else if addr = "https://api/BoltsNoItems/1?" then ⟨200, none, some (some 4)⟩
  else ⟨404, none, none⟩

/-- A single-page resource whose `Items` array holds a structural duplicate. -/
def worldNuts : World Nat := fun addr =>
  if addr = "https://api/Nuts/1?" then ⟨200, some [5, 5], some (some 1)⟩
  else ⟨404, none, none⟩

/-- A resource reporting `Pagination.NumberOfPages = 0`. -/
def worldFlanges : World Nat := fun addr =>
  if addr = "https://api/Flanges/1?" then ⟨200, some [1], some (some 0)⟩
  else ⟨404, none, none⟩

/-! ## Helper lemmas -/

theorem except_ok_of_isOk {ε β : Type} {x : Except ε β} (h : x.isOk = true) :
    ∃ b, x = .ok b := by
  cases x with
  | ok b => exact ⟨b, rfl⟩
  | error e => simp [Except.isOk, Except.toBool] at h

theorem getSignature_ok {args key : String} (h1 : strAscii args = true)
    (h2 : strAscii key = true) :
    getSignature args key =
      .ok (asciiDecode (b64encode (hmacSha256 (asciiBytes key) (asciiBytes args)))) := by
  simp [getSignature, pyEncodeAscii, h1, h2, Bind.bind, Except.bind, Pure.pure, Except.pure]

theorem getSignature_error {args key : String}
    (h : ¬(strAscii args = true ∧ strAscii key = true)) :
    getSignature args key = .error .unicodeEncodeError := by
  by_cases h2 : strAscii key = true
  · by_cases h1 : strAscii args = true
    · exact absurd ⟨h1, h2⟩ h
    · simp [getSignature, pyEncodeAscii, h1, h2, Bind.bind, Except.bind]
  · simp [getSignature, pyEncodeAscii, h2, Bind.bind, Except.bind]

theorem getSignature_isOk_iff (args key : String) :
    (getSignature args key).isOk = true ↔ (strAscii args = true ∧ strAscii key = true) := by
  constructor
  · intro h
    by_contra hc
    rw [getSignature_error hc] at h
    simp [Except.isOk, Except.toBool] at h
  · intro ⟨h1, h2⟩
    rw [getSignature_ok h1 h2]
    simp [Except.isOk, Except.toBool]

theorem pyDedupInto_nil {α : Type} [DecidableEq α] (acc : List α) :
    pyDedupInto acc [] = acc := rfl

theorem pyDedupInto_cons {α : Type} [DecidableEq α] (acc : List α) (y : α) (l : List α) :
    pyDedupInto acc (y :: l) = pyDedupInto (if y ∈ acc then acc else acc ++ [y]) l := rfl

theorem pyDedupInto_append {α : Type} [DecidableEq α] (acc l1 l2 : List α) :
    pyDedupInto acc (l1 ++ l2) = pyDedupInto (pyDedupInto acc l1) l2 := by
  simp [pyDedupInto, List.foldl_append]

theorem mem_pyDedupInto {α : Type} [DecidableEq α] (acc l : List α) (x : α) :
    x ∈ pyDedupInto acc l ↔ x ∈ acc ∨ x ∈ l := by
  induction l generalizing acc with
  | nil => simp [pyDedupInto_nil]
  | cons y l ih =>
    rw [pyDedupInto_cons, ih]
    by_cases hy : y ∈ acc <;> simp [hy, List.mem_append] <;> aesop

theorem nodup_pyDedupInto {α : Type} [DecidableEq α] (acc l : List α) (h : acc.Nodup) :
    (pyDedupInto acc l).Nodup := by
  induction l generalizing acc with
  | nil => simpa [pyDedupInto_nil]
  | cons y l ih =>
    rw [pyDedupInto_cons]
    by_cases hy : y ∈ acc
    · simpa [hy] using ih acc h
    · refine ih _ ?_
      rw [if_neg hy, List.nodup_append]
      refine ⟨h, List.nodup_singleton y, ?_⟩
      intro a ha hay
      rw [List.mem_singleton] at hay
      exact hy (hay ▸ ha)

theorem pyDedupInto_sublist {α : Type} [DecidableEq α] (acc l : List α) :
    ∃ t, pyDedupInto acc l = acc ++ t ∧ t.Sublist l := by
  induction l generalizing acc with
  | nil => exact ⟨[], by simp [pyDedupInto_nil]⟩
  | cons y l ih =>
    rw [pyDedupInto_cons]
    by_cases hy : y ∈ acc
    · rw [if_pos hy]
      obtain ⟨t, h1, h2⟩ := ih acc
      exact ⟨t, h1, h2.cons y⟩
    · rw [if_neg hy]
      obtain ⟨t, h1, h2⟩ := ih (acc ++ [y])
      exact ⟨y :: t, by simpa [List.append_assoc] using h1, h2.cons₂ y⟩

theorem nodup_pyDedup {α : Type} [DecidableEq α] (l : List α) : (pyDedup l).Nodup :=
  nodup_pyDedupInto [] l (List.nodup_nil)

theorem mem_pyDedup {α : Type} [DecidableEq α] (l : List α) (x : α) :
    x ∈ pyDedup l ↔ x ∈ l := by
  rw [pyDedup, mem_pyDedupInto]; simp

theorem pyDedup_sublist {α : Type} [DecidableEq α] (l : List α) : (pyDedup l).Sublist l := by
  obtain ⟨t, h1, h2⟩ := pyDedupInto_sublist ([] : List α) l
  rw [pyDedup, h1]; simpa using h2

theorem count_pyDedup {α : Type} [DecidableEq α] (l : List α) (x : α) (hx : x ∈ l) :
    (pyDedup l).count x = 1 :=
  List.count_eq_one_of_mem (nodup_pyDedup l) ((mem_pyDedup l x).mpr hx)

theorem pyDedup_ne_of_not_nodup {α : Type} [DecidableEq α] (l : List α) (h : ¬l.Nodup) :
    pyDedup l ≠ l := fun he => h (he ▸ nodup_pyDedup l)

theorem pyRange_eq_nil {n : Int} (h : n ≤ 0) : pyRange 1 (n + 1) = [] := by
  unfold pyRange
  have h0 : (n + 1 - 1).toNat = 0 := by omega
  rw [h0]
  rfl

theorem mem_pyRange {N i : Int} : i ∈ pyRange 1 (N + 1) ↔ 1 ≤ i ∧ i ≤ N := by
  unfold pyRange
  rw [List.mem_map]
  constructor
  · rintro ⟨k, hk, rfl⟩
    rw [List.mem_range] at hk
    omega
  · intro ⟨h1, h2⟩
    refine ⟨(i - 1).toNat, ?_, ?_⟩
    · rw [List.mem_range]; omega
    · omega

theorem pyRange_sorted (N : Int) : (pyRange 1 (N + 1)).Sorted (· < ·) := by
  unfold pyRange
  exact List.Pairwise.map _ (fun a b h => by omega) (List.sorted_lt_range _)

theorem afterPage_address (st : ClientState) (s f : String) (i : Int) :
    (afterPage st s f i).address = pageAddress st f i := rfl

theorem afterPage_filter (st : ClientState) (s f : String) (i : Int) :
    (afterPage st s f i).filter = st.filter := rfl

theorem afterPage_auth_sig (st : ClientState) (s f : String) (i : Int) :
    (afterPage st s f i).auth_sig = st.auth_sig := rfl

theorem pageAddress_afterPage (st : ClientState) (s f g : String) (i j : Int) :
    pageAddress (afterPage st s f i) g j = pageAddress st g j := rfl

theorem afterNone_address (st : ClientState) (s f : String) :
    (afterNone st s f).address = noPageAddress st f := rfl

theorem build_header_page (st : ClientState) {f s : String} (i : Int)
    (hf : st.filter = some f) (hs : getSignature f st.auth_sig = .ok s) :
    build_header st (some i) = .ok (afterPage st s f i) := by
  simp [build_header, hf, hs, Except.map, afterPage, pageAddress]

theorem build_header_none (st : ClientState) {f s : String}
    (hf : st.filter = some f) (hs : getSignature f st.auth_sig = .ok s) :
    build_header st none = .ok (afterNone st s f) := by
  simp [build_header, hf, hs, Except.map, afterNone, noPageAddress]

theorem build_header_sig_error (st : ClientState) {f : String} {e : PyErr} (p : Option Int)
    (hf : st.filter = some f) (hs : getSignature f st.auth_sig = .error e) :
    build_header st p = .error e := by
  simp [build_header, hf, hs, Except.map]

theorem _build_results_ok {α : Type} [DecidableEq α] (world : World α) (st : ClientState)
    (results items : List α)
    (h200 : 200 ≤ (world st.address).status) (h299 : (world st.address).status ≤ 299)
    (hit : (world st.address).items = some items) :
    _build_results world st results = .ok (pyDedupInto results items) := by
  simp [_build_results, raise_for_status, h200, h299, hit, Bind.bind, Except.bind]

theorem _build_results_httpError {α : Type} [DecidableEq α] (world : World α)
    (st : ClientState) (results : List α)
    (hbad : ¬(200 ≤ (world st.address).status ∧ (world st.address).status ≤ 299)) :
    _build_results world st results = .error (.httpError (world st.address).status) := by
  simp [_build_results, raise_for_status, if_neg hbad, Bind.bind, Except.bind]

theorem _build_results_keyError {α : Type} [DecidableEq α] (world : World α)
    (st : ClientState) (results : List α)
    (h200 : 200 ≤ (world st.address).status) (h299 : (world st.address).status ≤ 299)
    (hit : (world st.address).items = none) :
    _build_results world st results = .error (.keyError "Items") := by
  simp [_build_results, raise_for_status, h200, h299, hit, Bind.bind, Except.bind]

theorem all_results_loop_spec {α : Type} [DecidableEq α] (world : World α) (f s : String)
    (ws : Int → List α) :
    ∀ (pages : List Int) (st : ClientState) (results : List α) (trace : List String),
      st.filter = some f →
      getSignature f st.auth_sig = .ok s →
      (∀ i ∈ pages, 200 ≤ (world (pageAddress st f i)).status ∧
          (world (pageAddress st f i)).status ≤ 299 ∧
          (world (pageAddress st f i)).items = some (ws i)) →
      (all_results_loop world pages st results trace).map (fun r => (r.2.1, r.2.2)) =
        .ok (pyDedupInto results (pages.map ws).flatten,
             trace ++ pages.map (pageAddress st f)) := by
  intro pages
  induction pages with
  | nil =>
    intro st results trace _ _ _
    simp [all_results_loop, pyDedupInto_nil, Except.map]
  | cons i rest ih =>
    intro st results trace hf hs hresp
    obtain ⟨h200, h299, hit⟩ := hresp i (List.mem_cons_self i rest)
    have hb := build_header_page st i hf hs
    have hbr : _build_results world (afterPage st s f i) results = .ok (pyDedupInto results (ws i)) :=
      _build_results_ok _ _ _ (ws i) (by rw [afterPage_address]; exact h200)
        (by rw [afterPage_address]; exact h299) (by rw [afterPage_address]; exact hit)
    have hrec := ih (afterPage st s f i) (pyDedupInto results (ws i))
      (trace ++ [(afterPage st s f i).address]) (by rw [afterPage_filter]; exact hf)
      (by rw [afterPage_auth_sig]; exact hs)
      (by intro j hj
          rw [pageAddress_afterPage]
          exact hresp j (List.mem_cons_of_mem i hj))
    simp only [all_results_loop, hb, Bind.bind, Except.bind, hbr, hrec]
    rw [afterPage_address]
    simp only [List.map_cons, List.flatten_cons, pyDedupInto_append]
    have hpa : List.map (pageAddress (afterPage st s f i) f) rest = List.map (pageAddress st f) rest :=
      List.map_congr_left (fun j _ => pageAddress_afterPage st s f f i j)
    rw [hpa]
    simp

theorem all_results_loop_error {α : Type} [DecidableEq α] (world : World α) (f s : String)
    (ws : Int → List α) (k : Int) (post : List Int) :
    ∀ (pre : List Int) (st : ClientState) (results : List α) (trace : List String),
      st.filter = some f →
      getSignature f st.auth_sig = .ok s →
      (∀ i ∈ pre, 200 ≤ (world (pageAddress st f i)).status ∧
          (world (pageAddress st f i)).status ≤ 299 ∧
          (world (pageAddress st f i)).items = some (ws i)) →
      ¬(200 ≤ (world (pageAddress st f k)).status ∧
          (world (pageAddress st f k)).status ≤ 299) →
      all_results_loop world (pre ++ k :: post) st results trace =
        .error (.httpError (world (pageAddress st f k)).status) := by
  intro pre
  induction pre with
  | nil =>
    intro st results trace hf hs _ hbad
    have hb := build_header_page st k hf hs
    have hbr : _build_results world (afterPage st s f k) results =
        .error (.httpError (world (pageAddress st f k)).status) := by
      have h := _build_results_httpError world (afterPage st s f k) results
        (by rw [afterPage_address]; exact hbad)
      rw [afterPage_address] at h
      exact h
    simp only [List.nil_append, all_results_loop, hb, Bind.bind, Except.bind, hbr]
  | cons i rest ih =>
    intro st results trace hf hs hresp hbad
    obtain ⟨h200, h299, hit⟩ := hresp i (List.mem_cons_self i rest)
    have hb := build_header_page st i hf hs
    have hbr : _build_results world (afterPage st s f i) results = .ok (pyDedupInto results (ws i)) :=
      _build_results_ok _ _ _ (ws i) (by rw [afterPage_address]; exact h200)
        (by rw [afterPage_address]; exact h299) (by rw [afterPage_address]; exact hit)
    have hrec := ih (afterPage st s f i) (pyDedupInto results (ws i))
      (trace ++ [(afterPage st s f i).address]) (by rw [afterPage_filter]; exact hf)
      (by rw [afterPage_auth_sig]; exact hs)
      (by intro j hj
          rw [pageAddress_afterPage]
          exact hresp j (List.mem_cons_of_mem i hj))
      (by rw [pageAddress_afterPage]; exact hbad)
    rw [pageAddress_afterPage] at hrec
    simp only [List.cons_append, all_results_loop, hb, Bind.bind, Except.bind, hbr]
    exact hrec

theorem all_results_loop_trace {α : Type} [DecidableEq α] (world : World α) :
    ∀ (pages : List Int) (st : ClientState) (results : List α) (trace : List String)
      (r : ClientState × List α × List String),
      all_results_loop world pages st results trace = .ok r →
      ∃ ext, r.2.2 = trace ++ ext := by
  intro pages
  induction pages with
  | nil =>
    intro st results trace r h
    simp only [all_results_loop] at h
    cases h
    exact ⟨[], by simp⟩
  | cons i rest ih =>
    intro st results trace r h
    simp only [all_results_loop, Bind.bind] at h
    cases hb : build_header st (some i) with
    | error e => rw [hb] at h; simp [Except.bind] at h
    | ok st1 =>
      rw [hb] at h
      simp only [Except.bind] at h
      cases hr : _build_results world st1 results with
      | error e => rw [hr] at h; simp [Except.bind] at h
      | ok results1 =>
        rw [hr] at h
        simp only [Except.bind] at h
        obtain ⟨ext, he⟩ := ih st1 results1 (trace ++ [st1.address]) r h
        exact ⟨st1.address :: ext, by simpa [List.append_assoc] using he⟩

/-! ## Claim theorems -/

/-- C2: `getSignature(filterString, sharedSecret)` equals the base64 encoding of
the HMAC-SHA256 of the filter string keyed by the shared secret, fails with an
encoding error exactly when either input contains a non-ASCII character, and is
deterministic (equal inputs give equal outputs). -/
theorem getSignature_hmac_base64 (args privateKey : String) :
    (strAscii args = true → strAscii privateKey = true →
      getSignature args privateKey =
        .ok (asciiDecode (b64encode (hmacSha256 (asciiBytes privateKey) (asciiBytes args))))) ∧
    (¬(strAscii args = true ∧ strAscii privateKey = true) →
      getSignature args privateKey = .error .unicodeEncodeError) ∧
    ((getSignature args privateKey).isOk = true ↔
      (strAscii args = true ∧ strAscii privateKey = true)) ∧
    (∀ args2 privateKey2 : String, args2 = args → privateKey2 = privateKey →
      getSignature args2 privateKey2 = getSignature args privateKey) := by
  refine ⟨fun h1 h2 => getSignature_ok h1 h2, fun h => getSignature_error h,
    getSignature_isOk_iff args privateKey, ?_⟩
  rintro a2 k2 rfl rfl
  rfl

/-- C2 witness: the signature of a concrete ASCII filter string under a
concrete secret evaluates to the expected base64-encoded HMAC-SHA256 value,
and a non-ASCII input raises the encoding error. -/
theorem getSignature_hmac_base64_witness :
    getSignature "The quick brown fox jumps over the lazy dog" "key" =
      .ok "97yD9DBThCSxMpjmqm+xQ+9NWaFJRhdZl0edvC0aPNg=" ∧
    getSignature "héllo" "key" = .error .unicodeEncodeError := by
  constructor
  · rw [(getSignature_hmac_base64 "The quick brown fox jumps over the lazy dog" "key").1
      (by decide) (by decide)]
    decide
  · exact (getSignature_hmac_base64 "héllo" "key").2.1 (by decide)

/-- C3: contrary to the claim, a `Resource` whose filter has zero key/value
pairs still gets a `?` suffix: `build_header` tests `self.filter is not None`,
and `__init__` stores the empty string (not `None`), so the empty query string
is appended after `?`.  At construction the address is `base/resource/1?`, and
after `build_header(None)` it is `base/resource?` — not `base/resource`. -/
theorem empty_filter_address_trailing_question_mark :
    ((resource_init "Customers" "id" "secret" "https://api" []).map ClientState.address =
      .ok "https://api/Customers/1?") ∧
    (((resource_init "Customers" "id" "secret" "https://api" []).bind
        (fun st => build_header st none)).map ClientState.address =
      .ok "https://api/Customers?") ∧
    ("https://api/Customers?" ≠ "https://api/Customers") := by
  refine ⟨by decide, by decide, by decide⟩

/-- C9: `post_object(guid, object)` POSTs exactly the current address and
current header (including whatever signature was last built) with `object` as
the body, modifies no client field, and returns the transport's raw response
unchanged; the `guid` argument does not influence the request. -/
theorem post_object_frame {ρ : Type} (postWorld : PostRequest → ρ) (st : ClientState)
    (guid guid2 object : String) :
    (post_object postWorld st guid object).1 =
      postWorld ⟨st.address, "application/json", "application/json", st.auth_id,
                 st.api_auth_signature, object⟩ ∧
    (post_object postWorld st guid object).2 = st ∧
    post_object postWorld st guid object = post_object postWorld st guid2 object :=
  ⟨rfl, rfl, rfl⟩

/-- C1: when page discovery reports a positive page count `N`, `all_results`
visits pages `1..N` inclusive in ascending order (rebuilding the signed
address for each page), and appends an item to the accumulated result only if
no structurally equal item is already present, so every fetched item occurs
exactly once in the returned list, in first-occurrence order. -/
theorem all_results_visits_pages_dedup {α : Type} [DecidableEq α] (world : World α)
    (st : ClientState) (f : String) (N : Int) (ws : Int → List α)
    (hf : st.filter = some f)
    (hsig : (getSignature f st.auth_sig).isOk = true)
    (hN : 0 < N)
    (hpag : getPages world st = .ok (some N))
    (hresp : ∀ i ∈ pyRange 1 (N + 1), 200 ≤ (world (pageAddress st f i)).status ∧
        (world (pageAddress st f i)).status ≤ 299 ∧
        (world (pageAddress st f i)).items = some (ws i)) :
    all_results_core world st =
      .ok (pyDedup ((pyRange 1 (N + 1)).map ws).flatten,
           st.address :: (pyRange 1 (N + 1)).map (pageAddress st f)) ∧
    (∀ i : Int, i ∈ pyRange 1 (N + 1) ↔ 1 ≤ i ∧ i ≤ N) ∧
    (pyRange 1 (N + 1)).Sorted (· < ·) ∧
    (pyDedup ((pyRange 1 (N + 1)).map ws).flatten).Nodup ∧
    (∀ x ∈ ((pyRange 1 (N + 1)).map ws).flatten,
      (pyDedup ((pyRange 1 (N + 1)).map ws).flatten).count x = 1) ∧
    (pyDedup ((pyRange 1 (N + 1)).map ws).flatten).Sublist
      ((pyRange 1 (N + 1)).map ws).flatten := by
  obtain ⟨s, hs⟩ := except_ok_of_isOk hsig
  have hloop := all_results_loop_spec world f s ws (pyRange 1 (N + 1)) st [] [st.address]
    hf hs hresp
  refine ⟨?_, fun i => mem_pyRange, pyRange_sorted N, nodup_pyDedup _,
    fun x hx => count_pyDedup _ x hx, pyDedup_sublist _⟩
  simp only [all_results_core, hpag, Bind.bind, Except.bind]
  rw [hloop]
  simp [pyDedup]

/-- C1 witness: a 3-page resource whose page 2 ends with the item that starts
page 3 yields that item exactly once; the trace visits the discovery address
and then pages 1, 2, 3 in order. -/
theorem all_results_visits_pages_dedup_witness :
    all_results_core worldOrders (mkClient "Orders") =
      .ok ([1, 2, 3, 4, 5],
           ["https://api/Orders/1?", "https://api/Orders/1?",
            "https://api/Orders/2?", "https://api/Orders/3?"]) := by
  have h := all_results_visits_pages_dedup worldOrders (mkClient "Orders") "" 3 wsOrders
    (by decide) (by decide) (by decide) (by decide) (by decide)
  rw [h.1]
  decide

/-- C4 counterexample: with `Pagination` absent from the page-1 envelope,
`all_results` issues two requests, not one (discovery at the page-1 address,
then the page-less address), and deduplicates the returned `Items` instead of
returning them unchanged. -/
theorem all_results_no_pagination_cex :
    all_results_core worldWidgets (mkClient "Widgets") =
      .ok ([7], ["https://api/Widgets/1?", "https://api/Widgets?"]) ∧
    (worldWidgets "https://api/Widgets?").items = some [7, 7] ∧
    ([7] : List Nat) ≠ [7, 7] ∧
    (["https://api/Widgets/1?", "https://api/Widgets?"] : List String).length ≠ 1 := by
  refine ⟨by decide, by decide, by decide, by decide⟩

/-- C4 (amended): when the discovery envelope lacks a page count, `all_results`
issues exactly two requests — the discovery request at the client's current
address and one fetch at the page-less address — and returns the second
response's `Items` deduplicated within the array, first occurrences kept. -/
theorem all_results_no_pagination_two_requests {α : Type} [DecidableEq α] (world : World α)
    (st : ClientState) (f : String) (its : List α)
    (hf : st.filter = some f)
    (hsig : (getSignature f st.auth_sig).isOk = true)
    (hpag : getPages world st = .ok none)
    (h200 : 200 ≤ (world (noPageAddress st f)).status)
    (h299 : (world (noPageAddress st f)).status ≤ 299)
    (hits : (world (noPageAddress st f)).items = some its) :
    all_results_core world st = .ok (pyDedup its, [st.address, noPageAddress st f]) ∧
    ([st.address, noPageAddress st f] : List String).length = 2 := by
  obtain ⟨s, hs⟩ := except_ok_of_isOk hsig
  have hb := build_header_none st hf hs
  have hbr : _build_results world (afterNone st s f) [] = .ok (pyDedupInto [] its) :=
    _build_results_ok _ _ _ its (by rw [afterNone_address]; exact h200)
      (by rw [afterNone_address]; exact h299) (by rw [afterNone_address]; exact hits)
  refine ⟨?_, rfl⟩
  simp only [all_results_core, hpag, Bind.bind, Except.bind, hb, hbr, afterNone_address]
  rfl

/-- C4 witness for the amended statement, at the concrete no-pagination
environment: two requests, and `[7, 7]` collapses to `[7]`. -/
theorem all_results_no_pagination_two_requests_witness :
    all_results_core worldWidgets (mkClient "Widgets") =
      .ok (pyDedup [7, 7],
           [(mkClient "Widgets").address, noPageAddress (mkClient "Widgets") ""]) :=
  (all_results_no_pagination_two_requests worldWidgets (mkClient "Widgets") "" [7, 7]
    (by decide) (by decide) (by decide) (by decide) (by decide) (by decide)).1

/-- C5 counterexample: on a freshly constructed client, the discovery request
of `all_results` is issued at the page-1 address `base/resource/1?filter` —
the page segment is present, not omitted. -/
theorem discovery_request_page_segment_cex :
    (all_results_core worldGadgets (mkClient "Gadgets")).map (fun r => r.2.head?) =
      .ok (some "https://api/Gadgets/1?") ∧
    ("https://api/Gadgets/1?" : String) ≠ "https://api/Gadgets?" := by
  refine ⟨by decide, by decide⟩

/-- C5 (amended): the page-count discovery step of `all_results` issues its
request at the client's current address, and a freshly constructed client's
current address carries the page segment `1` (`base/resource/1?filter`), so
the discovery request does not omit the page segment. -/
theorem discovery_request_uses_current_address {α : Type} [DecidableEq α] (world : World α)
    (st : ClientState) (r : List α × List String)
    (name id secret base : String) (kwargs : List (String × String)) (st0 : ClientState) :
    (all_results_core world st = .ok r → r.2.head? = some st.address) ∧
    (resource_init name id secret base kwargs = .ok st0 →
      st0.address = base ++ "/" ++ name ++ "/" ++ toString (1 : Int) ++ "?" ++
        buildFilter kwargs) := by
  constructor
  · intro h
    simp only [all_results_core, Bind.bind] at h
    cases hp : getPages world st with
    | error e => rw [hp] at h; simp [Except.bind] at h
    | ok pages =>
      rw [hp] at h
      simp only [Except.bind] at h
      cases pages with
      | some n =>
        simp only at h
        cases hl : all_results_loop world (pyRange 1 (n + 1)) st [] [st.address] with
        | error e => rw [hl] at h; simp [Except.map] at h
        | ok r1 =>
          rw [hl] at h
          simp only [Except.map] at h
          obtain ⟨ext, he⟩ := all_results_loop_trace world (pyRange 1 (n + 1)) st [] [st.address] r1 hl
          cases h
          rw [he]
          simp
      | none =>
        simp only at h
        cases hb : build_header st none with
        | error e => rw [hb] at h; simp [Except.bind] at h
        | ok st1 =>
          rw [hb] at h
          simp only [Except.bind] at h
          cases hr : _build_results world st1 [] with
          | error e => rw [hr] at h; simp [Except.bind] at h
          | ok results =>
            rw [hr] at h
            simp only [Except.bind] at h
            cases h
            simp
  · intro h
    unfold resource_init at h
    cases hs : getSignature (buildFilter kwargs) secret with
    | error e =>
      rw [build_header_sig_error _ (some 1) rfl hs] at h
      exact absurd h (by simp)
    | ok s =>
      rw [build_header_page _ 1 rfl hs] at h
      cases h
      rfl

/-- C5 witness: on a concrete single-page resource the first requested address
of the traversal is the client's current address, and a freshly constructed
client's address is `base/resource/1?filter`. -/
theorem discovery_request_uses_current_address_witness :
    (["https://api/Gadgets/1?", "https://api/Gadgets/1?"] : List String).head? =
      some (mkClient "Gadgets").address ∧
    (resource_init "Gadgets" "id" "secret" "https://api" []).map ClientState.address =
      .ok ("https://api" ++ "/" ++ "Gadgets" ++ "/" ++ toString (1 : Int) ++ "?" ++
        buildFilter []) := by
  have hrun : all_results_core worldGadgets (mkClient "Gadgets") =
      .ok ([1], ["https://api/Gadgets/1?", "https://api/Gadgets/1?"]) := by decide
  have hinit : (resource_init "Gadgets" "id" "secret" "https://api" []).isOk = true := by decide
  obtain ⟨st0, hst0⟩ := except_ok_of_isOk hinit
  constructor
  · exact (discovery_request_uses_current_address worldGadgets (mkClient "Gadgets")
      ([1], ["https://api/Gadgets/1?", "https://api/Gadgets/1?"])
      "Gadgets" "id" "secret" "https://api" [] st0).1 hrun
  · rw [hst0, Except.map,
      (discovery_request_uses_current_address worldGadgets (mkClient "Gadgets")
        ([1], ["https://api/Gadgets/1?", "https://api/Gadgets/1?"])
        "Gadgets" "id" "secret" "https://api" [] st0).2 hst0]

/-- C6: `first_page`, `get_page` and `all_results` all propagate a non-2xx
HTTP status as an error; in an `all_results` traversal a failure on page `k`
yields only the error — the items accumulated from earlier pages are
discarded and never returned in any form. -/
theorem http_error_aborts_without_partial_results {α : Type} [DecidableEq α]
    (dump : α → String) (world : World α) :
    (∀ st : ClientState,
      ¬(200 ≤ (world st.address).status ∧ (world st.address).status ≤ 299) →
      first_page dump world st = .error (.httpError (world st.address).status)) ∧
    (∀ (st st1 : ClientState) (p : Option Int),
      build_header st p = .ok st1 →
      ¬(200 ≤ (world st1.address).status ∧ (world st1.address).status ≤ 299) →
      get_page dump world st p = .error (.httpError (world st1.address).status)) ∧
    (∀ (st : ClientState) (f : String) (N k : Int) (pre post : List Int) (ws : Int → List α),
      st.filter = some f →
      (getSignature f st.auth_sig).isOk = true →
      getPages world st = .ok (some N) →
      pyRange 1 (N + 1) = pre ++ k :: post →
      (∀ i ∈ pre, 200 ≤ (world (pageAddress st f i)).status ∧
          (world (pageAddress st f i)).status ≤ 299 ∧
          (world (pageAddress st f i)).items = some (ws i)) →
      ¬(200 ≤ (world (pageAddress st f k)).status ∧
          (world (pageAddress st f k)).status ≤ 299) →
      all_results dump world st = .error (.httpError (world (pageAddress st f k)).status)) := by
  refine ⟨?_, ?_, ?_⟩
  · intro st hbad
    simp [first_page, first_page_core, raise_for_status, if_neg hbad, Bind.bind,
      Except.bind, Except.map]
  · intro st st1 p hb hbad
    simp only [get_page, hb, Bind.bind, Except.bind]
    rw [_build_results_httpError world st1 [] hbad]
  · intro st f N k pre post ws hf hsig hpag hsplit hpre hbad
    obtain ⟨s, hs⟩ := except_ok_of_isOk hsig
    have herr := all_results_loop_error world f s ws k post pre st [] [st.address]
      hf hs hpre hbad
    simp only [all_results, all_results_core, hpag, Bind.bind, Except.bind]
    rw [hsplit, herr]
    rfl

/-- C6 witness: a 5-page resource whose page 2 responds with HTTP 500 makes
`all_results` return only the HTTP error, with no items from page 1. -/
theorem http_error_aborts_without_partial_results_witness :
    all_results (fun n : Nat => toString n) worldSprockets (mkClient "Sprockets") =
      .error (.httpError 500) := by
  have h := (http_error_aborts_without_partial_results (fun n : Nat => toString n)
      worldSprockets).2.2
    (mkClient "Sprockets") "" 5 2 [1] [3, 4, 5] wsSprockets
    (by decide) (by decide) (by decide) (by decide) (by decide) (by decide)
  rw [h]
  decide

/-- C7: when the envelope carries `Pagination.NumberOfPages`, `getPages`
returns that integer; when `Pagination` (or `NumberOfPages` inside it) is
absent, it returns `None` rather than an error; and a missing `Items` array
in a page response is surfaced as a `KeyError` rather than degrading to an
empty result. -/
theorem getPages_pagination_and_items_errors {α : Type} [DecidableEq α] (world : World α)
    (st : ClientState) (n : Int) (results : List α)
    (h200 : 200 ≤ (world st.address).status) (h299 : (world st.address).status ≤ 299) :
    ((world st.address).pagination = some (some n) → getPages world st = .ok (some n)) ∧
    ((world st.address).pagination = none → getPages world st = .ok none) ∧
    ((world st.address).pagination = some none → getPages world st = .ok none) ∧
    ((world st.address).items = none →
      _build_results world st results = .error (.keyError "Items")) := by
  refine ⟨fun h => ?_, fun h => ?_, fun h => ?_,
    fun h => _build_results_keyError world st results h200 h299 h⟩ <;>
  simp [getPages, raise_for_status, h200, h299, h, Bind.bind, Except.bind]

/-- C7 witness: the four envelope shapes at concrete addresses — page count 4
returned, `Pagination` absent gives `None`, `NumberOfPages` absent gives
`None`, and a missing `Items` array raises `KeyError('Items')`. -/
theorem getPages_pagination_and_items_errors_witness :
    getPages worldBolts (mkClient "Bolts") = .ok (some 4) ∧
    getPages worldBolts (mkClient "BoltsNoPag") = .ok none ∧
    getPages worldBolts (mkClient "BoltsEmptyPag") = .ok none ∧
    _build_results worldBolts (mkClient "BoltsNoItems") ([] : List Nat) =
      .error (.keyError "Items") := by
  refine ⟨?_, ?_, ?_, ?_⟩
  · exact (getPages_pagination_and_items_errors worldBolts (mkClient "Bolts") 4
      ([] : List Nat) (by decide) (by decide)).1 (by decide)
  · exact (getPages_pagination_and_items_errors worldBolts (mkClient "BoltsNoPag") 4
      ([] : List Nat) (by decide) (by decide)).2.1 (by decide)
  · exact (getPages_pagination_and_items_errors worldBolts (mkClient "BoltsEmptyPag") 4
      ([] : List Nat) (by decide) (by decide)).2.2.1 (by decide)
  · exact (getPages_pagination_and_items_errors worldBolts (mkClient "BoltsNoItems") 4
      ([] : List Nat) (by decide) (by decide)).2.2.2 (by decide)

/-- C8: `first_page` returns the response's `Items` array verbatim — no
deduplication even with structural duplicates — whereas `all_results` on a
single-page resource deduplicates within that page, so the two differ on the
same input exactly when the page has internal duplicates. -/
theorem first_page_verbatim_all_results_dedup {α : Type} [DecidableEq α] (world : World α)
    (st : ClientState) (f : String) (its : List α)
    (hf : st.filter = some f)
    (hsig : (getSignature f st.auth_sig).isOk = true)
    (h200a : 200 ≤ (world st.address).status) (h299a : (world st.address).status ≤ 299)
    (hitsa : (world st.address).items = some its)
    (hpag : getPages world st = .ok (some 1))
    (h200b : 200 ≤ (world (pageAddress st f 1)).status)
    (h299b : (world (pageAddress st f 1)).status ≤ 299)
    (hitsb : (world (pageAddress st f 1)).items = some its) :
    first_page_core world st = .ok its ∧
    all_results_core world st = .ok (pyDedup its, [st.address, pageAddress st f 1]) ∧
    (¬its.Nodup → pyDedup its ≠ its) := by
  obtain ⟨s, hs⟩ := except_ok_of_isOk hsig
  refine ⟨?_, ?_, fun hnd => pyDedup_ne_of_not_nodup its hnd⟩
  · simp [first_page_core, raise_for_status, h200a, h299a, hitsa, Bind.bind, Except.bind]
  · have hr1 : pyRange 1 (1 + 1) = [1] := by decide
    have hresp : ∀ i ∈ ([1] : List Int),
        200 ≤ (world (pageAddress st f i)).status ∧
        (world (pageAddress st f i)).status ≤ 299 ∧
        (world (pageAddress st f i)).items = some ((fun _ => its) i) := by
      intro i hi
      rw [List.mem_singleton] at hi
      subst hi
      exact ⟨h200b, h299b, hitsb⟩
    have hloop := all_results_loop_spec world f s (fun _ => its) [1] st [] [st.address]
      hf hs hresp
    simp only [all_results_core, hpag, Bind.bind, Except.bind]
    rw [hr1, hloop]
    simp [pyDedup]

/-- C8 witness: on a single page whose `Items` are `[5, 5]`, `first_page`
returns `[5, 5]` unchanged while `all_results` returns `[5]`. -/
theorem first_page_verbatim_all_results_dedup_witness :
    first_page_core worldNuts (mkClient "Nuts") = .ok [5, 5] ∧
    all_results_core worldNuts (mkClient "Nuts") =
      .ok ([5], ["https://api/Nuts/1?", "https://api/Nuts/1?"]) ∧
    pyDedup [5, 5] ≠ [5, 5] := by
  have h := first_page_verbatim_all_results_dedup worldNuts (mkClient "Nuts") "" [5, 5]
    (by decide) (by decide) (by decide) (by decide) (by decide) (by decide) (by decide)
    (by decide) (by decide)
  refine ⟨h.1, ?_, h.2.2 (by decide)⟩
  rw [h.2.1]
  decide

/-- C10: when `getPages` reports a non-positive page count, `range(1, pages+1)`
is empty, so `all_results` issues no page requests after the discovery request
and returns the serialized empty JSON array. -/
theorem all_results_nonpositive_pages_empty {α : Type} [DecidableEq α]
    (dump : α → String) (world : World α) (st : ClientState) (n : Int)
    (hpag : getPages world st = .ok (some n)) (hn : n ≤ 0) :
    all_results dump world st = .ok ("[]", [st.address]) := by
  simp only [all_results, all_results_core, hpag, Bind.bind, Except.bind]
  rw [pyRange_eq_nil hn]
  simp only [all_results_loop, Except.map]
  have hempty : pyJsonDumpsList dump ([] : List α) = "[]" := rfl
  rw [hempty]

/-- C10 witness: a resource reporting `NumberOfPages = 0` yields `"[]"` after
a single (discovery) request. -/
theorem all_results_nonpositive_pages_empty_witness :
    all_results (fun n : Nat => toString n) worldFlanges (mkClient "Flanges") =
      .ok ("[]", ["https://api/Flanges/1?"]) := by
  have h := all_results_nonpositive_pages_empty (fun n : Nat => toString n) worldFlanges
    (mkClient "Flanges") 0 (by decide) (by decide)
  rw [h]
  decide

end UnleashedPy
